import Mathlib

/-!
Shallow embedding of the Voltas A/C IR protocol codec
(src/src/ir_Voltas.h, src/src/ir_Voltas.cpp).

Bytes are modelled as natural numbers below 256; machine truncation is made
explicit with `% 256` where the C++ relies on uint8 wrap-around.  The C++
bit-fields of the `VoltasProtocol` union are modelled by explicit div/mod
arithmetic on the raw bytes (`getBits`/`setBits`), matching the LSB-first
bit allocation documented in the spec (§3 field table).
-/

namespace Voltas

/-- Timing constant, ir_Voltas.cpp line 22: mark pulse in microseconds. -/
def kVoltasBitMark : Nat := 1026

/-- Timing constant, ir_Voltas.cpp line 23: space of a logical one. -/
def kVoltasOneSpace : Nat := 2553

/-- Timing constant, ir_Voltas.cpp line 24: space of a logical zero. -/
def kVoltasZeroSpace : Nat := 554

/-- Timing constant, ir_Voltas.cpp line 25: carrier frequency in Hz. -/
def kVoltasFreq : Nat := 38000

/-- Modelled from the spec: `kVoltasStateLength` is declared in the library
header that is not under src/; the spec (§3) fixes the state at exactly
10 bytes. -/
def kVoltasStateLength : Nat := 10

/-- Modelled from the spec: `kVoltasBits` is declared in the library header
that is not under src/; the spec (§4.4) fixes the message at 80 bits. -/
def kVoltasBits : Nat := kVoltasStateLength * 8

/-- Modelled from the spec: native operating-mode code for Fan, declared in
the library header that is not under src/ (a 4-bit enum value). -/
def kVoltasFan : Nat := 7

/-- Modelled from the spec: native operating-mode code for Heat. -/
def kVoltasHeat : Nat := 2

/-- Modelled from the spec: native operating-mode code for Dry. -/
def kVoltasDry : Nat := 4

/-- Modelled from the spec: native operating-mode code for Cool, the
documented default for out-of-range mode inputs. -/
def kVoltasCool : Nat := 8

/-- Modelled from the spec: lowest selectable temperature in Celsius,
declared in the library header that is not under src/. -/
def kVoltasMinTemp : Nat := 16

/-- Modelled from the spec: highest selectable temperature in Celsius,
declared in the library header that is not under src/. -/
def kVoltasMaxTemp : Nat := 30

/-- Modelled from the spec: native fan-speed code for High (3-bit value). -/
def kVoltasFanHigh : Nat := 1

/-- Modelled from the spec: native fan-speed code for Med. -/
def kVoltasFanMed : Nat := 2

/-- Modelled from the spec: native fan-speed code for Low. -/
def kVoltasFanLow : Nat := 4

/-- Modelled from the spec: native fan-speed code for Auto, the documented
default for out-of-range fan inputs. -/
def kVoltasFanAuto : Nat := 5

/-- Read a bit-field of `width` bits starting at bit `shift` of `byte`
(bit 0 is the least significant bit, as in the C++ bit-field layout). -/
def getBits (byte shift width : Nat) : Nat :=
  (byte / 2 ^ shift) % 2 ^ width

/-- Write value `v` into the bit-field of `width` bits at bit `shift` of
`byte`, leaving the bits below `shift` and at or above `shift + width`
untouched (C++ bit-field assignment truncates `v` to `width` bits). -/
def setBits (byte shift width v : Nat) : Nat :=
  byte % 2 ^ shift + (v % 2 ^ width) * 2 ^ shift
    + (byte / 2 ^ (shift + width)) * 2 ^ (shift + width)

/-- The `VoltasProtocol` union of ir_Voltas.h lines 28-70: the ten raw state
bytes `raw[0] .. raw[9]`.  The overlaid bit-fields are modelled by the
accessor functions below instead of memory aliasing. -/
structure VoltasProtocol where
  b0 : Nat
  b1 : Nat
  b2 : Nat
  b3 : Nat
  b4 : Nat
  b5 : Nat
  b6 : Nat
  b7 : Nat
  b8 : Nat
  b9 : Nat
deriving DecidableEq

/-- The raw bytes of a state, in transmission order, as a list. -/
def toList (s : VoltasProtocol) : List Nat :=
  [s.b0, s.b1, s.b2, s.b3, s.b4, s.b5, s.b6, s.b7, s.b8, s.b9]

/-- Bit-field `Mode` (byte 1, bits 0-3). -/
def Mode (s : VoltasProtocol) : Nat := getBits s.b1 0 4

/-- Bit-field `FanSpeed` (byte 1, bits 5-7). -/
def FanSpeed (s : VoltasProtocol) : Nat := getBits s.b1 5 3

/-- Bit-field `Wifi` (byte 2, bit 3). -/
def Wifi (s : VoltasProtocol) : Nat := getBits s.b2 3 1

/-- Bit-field `Turbo` (byte 2, bit 5). -/
def Turbo (s : VoltasProtocol) : Nat := getBits s.b2 5 1

/-- Bit-field `Power` (byte 2, bit 7). -/
def Power (s : VoltasProtocol) : Nat := getBits s.b2 7 1

/-- Bit-field `Temp` (byte 3, bits 0-3). -/
def Temp (s : VoltasProtocol) : Nat := getBits s.b3 0 4

/-- Bit-field `Econo` (byte 3, bit 6). -/
def Econo (s : VoltasProtocol) : Nat := getBits s.b3 6 1

/-- Bit-field `Light` (byte 8, bit 5). -/
def Light (s : VoltasProtocol) : Nat := getBits s.b8 5 1

/-- IRVoltas::stateReset (ir_Voltas.cpp lines 92-95): zero all ten bytes. -/
def stateReset : VoltasProtocol := ⟨0, 0, 0, 0, 0, 0, 0, 0, 0, 0⟩

/-- IRVoltas::setRaw (ir_Voltas.cpp lines 117-119): memcpy the ten supplied
bytes over the internal state, replacing it verbatim. -/
def setRaw (_s : VoltasProtocol) (new_code : VoltasProtocol) : VoltasProtocol :=
  new_code

/-- Modelled from the spec: `sumBytes` lives in IRutils, which is not under
src/; the spec (§4.3) words it as the 8-bit unsigned sum of the first
`length` bytes modulo 256. -/
def sumBytes (state : List Nat) (length : Nat) : Nat :=
  ((state.take length).foldl (· + ·) 0) % 256

/-- IRVoltas::calcChecksum (ir_Voltas.cpp lines 139-144): sum the first
`length - 1` bytes (nothing when `length` is zero) and return the bitwise
complement of the uint8 sum, which for a value below 256 is `255 - value`. -/
def calcChecksum (state : List Nat) (length : Nat) : Nat :=
  let result := if length ≠ 0 then sumBytes state (length - 1) else 0
  255 - result

/-- IRVoltas::validChecksum (ir_Voltas.cpp lines 130-133): compare the byte
at position `length - 1` against `calcChecksum`; vacuously true for an
empty length. -/
def validChecksum (state : List Nat) (length : Nat) : Bool :=
  if length ≠ 0 then state.getD (length - 1) 0 == calcChecksum state length
  else true

/-- IRVoltas::checksum (ir_Voltas.cpp lines 122-124): store
`calcChecksum(raw, kVoltasStateLength - 1)` into the `Checksum` bit-field
(byte 9).  Note the `kVoltasStateLength - 1` length argument. -/
def checksum (s : VoltasProtocol) : VoltasProtocol :=
  { s with b9 := calcChecksum (toList s) (kVoltasStateLength - 1) }

/-- IRVoltas::getRaw (ir_Voltas.cpp lines 110-113): recompute the checksum,
then expose the raw bytes. -/
def getRaw (s : VoltasProtocol) : VoltasProtocol :=
  checksum s

/-- IRVoltas::setPower (ir_Voltas.cpp line 154). -/
def setPower (s : VoltasProtocol) (o : Bool) : VoltasProtocol :=
  { s with b2 := setBits s.b2 7 1 (if o then 1 else 0) }

/-- IRVoltas::getPower (ir_Voltas.cpp line 158). -/
def getPower (s : VoltasProtocol) : Bool := Power s == 1

/-- IRVoltas::setMode (ir_Voltas.cpp lines 163-175): accept only the four
enumerated modes; the default switch branch tail-calls `setMode(kVoltasCool)`,
which lands in the accepting case, so any other input stores Cool. -/
def setMode (s : VoltasProtocol) (mode : Nat) : VoltasProtocol :=
  if mode = kVoltasFan ∨ mode = kVoltasHeat ∨ mode = kVoltasDry ∨
      mode = kVoltasCool then
    { s with b1 := setBits s.b1 0 4 mode }
  else
    { s with b1 := setBits s.b1 0 4 kVoltasCool }

/-- IRVoltas::getMode (ir_Voltas.cpp line 179): the stored field verbatim. -/
def getMode (s : VoltasProtocol) : Nat := Mode s

/-- IRVoltas::setTemp (ir_Voltas.cpp lines 183-187): clamp the uint8 input
to `[kVoltasMinTemp, kVoltasMaxTemp]` and store the offset from the
minimum in the 4-bit `Temp` field. -/
def setTemp (s : VoltasProtocol) (temp : Nat) : VoltasProtocol :=
  let t := temp % 256
  let new_temp := min kVoltasMaxTemp (max kVoltasMinTemp t)
  { s with b3 := setBits s.b3 0 4 (new_temp - kVoltasMinTemp) }

/-- IRVoltas::getTemp (ir_Voltas.cpp line 236): stored field plus the
minimum temperature, with no re-validation. -/
def getTemp (s : VoltasProtocol) : Nat := Temp s + kVoltasMinTemp

/-- IRVoltas::setFan (ir_Voltas.cpp lines 191-202): accept only the four
enumerated speeds; the default branch tail-calls `setFan(kVoltasFanAuto)`,
so any other input stores Auto. -/
def setFan (s : VoltasProtocol) (fan : Nat) : VoltasProtocol :=
  if fan = kVoltasFanLow ∨ fan = kVoltasFanMed ∨ fan = kVoltasFanHigh ∨
      fan = kVoltasFanAuto then
    { s with b1 := setBits s.b1 5 3 fan }
  else
    { s with b1 := setBits s.b1 5 3 kVoltasFanAuto }

/-- IRVoltas::getFan (ir_Voltas.cpp line 232): the stored field verbatim. -/
def getFan (s : VoltasProtocol) : Nat := FanSpeed s

/-- IRVoltas::setWifi (ir_Voltas.cpp line 240). -/
def setWifi (s : VoltasProtocol) (o : Bool) : VoltasProtocol :=
  { s with b2 := setBits s.b2 3 1 (if o then 1 else 0) }

/-- IRVoltas::getWifi (ir_Voltas.cpp line 244). -/
def getWifi (s : VoltasProtocol) : Bool := Wifi s == 1

/-- IRVoltas::setTurbo (ir_Voltas.cpp line 248). -/
def setTurbo (s : VoltasProtocol) (o : Bool) : VoltasProtocol :=
  { s with b2 := setBits s.b2 5 1 (if o then 1 else 0) }

/-- IRVoltas::getTurbo (ir_Voltas.cpp line 252). -/
def getTurbo (s : VoltasProtocol) : Bool := Turbo s == 1

/-- IRVoltas::setEcono (ir_Voltas.cpp line 256). -/
def setEcono (s : VoltasProtocol) (o : Bool) : VoltasProtocol :=
  { s with b3 := setBits s.b3 6 1 (if o then 1 else 0) }

/-- IRVoltas::getEcono (ir_Voltas.cpp line 260). -/
def getEcono (s : VoltasProtocol) : Bool := Econo s == 1

/-- IRVoltas::setLight (ir_Voltas.cpp line 264). -/
def setLight (s : VoltasProtocol) (o : Bool) : VoltasProtocol :=
  { s with b8 := setBits s.b8 5 1 (if o then 1 else 0) }

/-- IRVoltas::getLight (ir_Voltas.cpp line 268). -/
def getLight (s : VoltasProtocol) : Bool := Light s == 1

/-- Modelled from the spec: the library-wide protocol enum `decode_type_t`
is declared outside src/; only the members this file needs are modelled. -/
inductive decode_type_t where
  | UNKNOWN
  | VOLTAS
deriving DecidableEq

/-- Modelled from the spec: the fields of `decode_results` that
IRrecv::decodeVoltas writes (the raw pulse buffer stays inside the
Transmission Boundary oracle). -/
structure decode_results where
  decode_type : decode_type_t
  bits : Nat
  state : List Nat
deriving DecidableEq

/-- IRrecv::decodeVoltas (ir_Voltas.cpp lines 59-78).  The call to
`matchGeneric` is the external Transmission Boundary (IRrecv, not under
src/); Modelled from the spec (§4.4) as an oracle argument `matched` that
yields the reconstructed bytes when the captured pulses match the Timing
Profile and nothing otherwise.  Returns the recorded decode on success and
nothing on any rejection. -/
def decodeVoltas (matched : Option (List Nat)) (nbits : Nat)
    (strict : Bool) : Option decode_results :=
  if strict ∧ nbits ≠ kVoltasBits then none
  else
    match matched with
    | none => none
    | some st =>
      if strict ∧ validChecksum st (nbits / 8) = false then none
      else some { decode_type := decode_type_t.VOLTAS, bits := nbits,
                  state := st }

namespace stdAc

/-- Modelled from the spec: the abstract operating-mode enum of the common
A/C layer (stdAc, not under src/). -/
inductive opmode_t where
  | kOff
  | kAuto
  | kCool
  | kHeat
  | kDry
  | kFan
deriving DecidableEq

/-- Modelled from the spec: the abstract 5-level fan-speed enum plus Auto
(stdAc, not under src/). -/
inductive fanspeed_t where
  | kAuto
  | kMin
  | kLow
  | kMedium
  | kHigh
  | kMax
deriving DecidableEq

/-- Modelled from the spec: the abstract vertical-swing enum (stdAc). -/
inductive swingv_t where
  | kOff
  | kAuto
  | kHighest
  | kHigh
  | kMiddle
  | kLow
  | kLowest
deriving DecidableEq

/-- Modelled from the spec: the abstract horizontal-swing enum (stdAc). -/
inductive swingh_t where
  | kOff
  | kAuto
  | kLeftMax
  | kLeft
  | kMiddle
  | kRight
  | kRightMax
  | kWide
deriving DecidableEq

/-- Modelled from the spec: `stdAc::state_t`, the protocol-agnostic summary
record (stdAc, not under src/).  `degrees` is a float in C++ but only ever
receives the integral `getTemp()` value here, so it is modelled as a
natural number. -/
structure state_t where
  protocol : decode_type_t
  model : Int
  power : Bool
  mode : opmode_t
  degrees : Nat
  celsius : Bool
  fanspeed : fanspeed_t
  swingv : swingv_t
  swingh : swingh_t
  quiet : Bool
  turbo : Bool
  econo : Bool
  light : Bool
  filter : Bool
  clean : Bool
  beep : Bool
  sleep : Int
  clock : Int
deriving DecidableEq

end stdAc

/-- IRVoltas::convertFan (ir_Voltas.cpp lines 207-216). -/
def convertFan (speed : stdAc.fanspeed_t) : Nat :=
  match speed with
  | stdAc.fanspeed_t.kMin => kVoltasFanLow
  | stdAc.fanspeed_t.kLow => kVoltasFanLow
  | stdAc.fanspeed_t.kMedium => kVoltasFanMed
  | stdAc.fanspeed_t.kHigh => kVoltasFanHigh
  | stdAc.fanspeed_t.kMax => kVoltasFanHigh
  | _ => kVoltasFanAuto

/-- IRVoltas::toCommonFanSpeed (ir_Voltas.cpp lines 221-228). -/
def toCommonFanSpeed (spd : Nat) : stdAc.fanspeed_t :=
  if spd = kVoltasFanHigh then stdAc.fanspeed_t.kMax
  else if spd = kVoltasFanMed then stdAc.fanspeed_t.kMedium
  else if spd = kVoltasFanLow then stdAc.fanspeed_t.kMin
  else stdAc.fanspeed_t.kAuto

/-- IRVoltas::toCommon (ir_Voltas.cpp lines 272-301).  In the source the
local `stdAc::state_t result;` is declared without an initializer, so any
field the body never assigns keeps an indeterminate value; the argument
`result0` stands for that initial memory contents.  The assignments to
`mode`, `swingv`, `clean` and `sleep` are commented out in the source, so
those fields pass through from `result0`. -/
def toCommon (s : VoltasProtocol) (result0 : stdAc.state_t) :
    stdAc.state_t :=
  { result0 with
    protocol := decode_type_t.VOLTAS
    power := getPower s
    celsius := true
    degrees := getTemp s
    fanspeed := toCommonFanSpeed (FanSpeed s)
    turbo := getTurbo s
    econo := getEcono s
    light := getLight s
    model := -1
    swingh := stdAc.swingh_t.kOff
    quiet := false
    filter := false
    beep := false
    clock := -1 }

/-- The concrete example message of ir_Voltas.cpp lines 34-35 (also the
fixture of spec §8). -/
def voltasFixture : List Nat :=
  [0x33, 0x28, 0x88, 0x1A, 0x3B, 0x3B, 0x3B, 0x11, 0x00, 0x40]


/-- A state whose ninth byte (index 8) is nonzero, exercising the byte the
checksum routine is expected to include. -/
def byte8One : VoltasProtocol := ⟨0, 0, 0, 0, 0, 0, 0, 0, 1, 0⟩

/-- The checksum exactly as the spec words it (§4.3): the bitwise complement
of the 8-bit unsigned sum modulo 256 of the bytes before the checksum
position, that is bytes 0 through length - 2. -/
def specChecksum (state : List Nat) (length : Nat) : Nat :=
  (((state.take (length - 1)).foldl (· + ·) 0) % 256) ^^^ 255

set_option maxRecDepth 4096 in
/-- For a uint8 value, subtraction from 255 is the bitwise complement. -/
theorem complement8_eq_xor : ∀ a < 256, 255 - a = a ^^^ 255 := by decide

/-- C2: for every buffer and every length at least 1, calcChecksum returns
the bitwise complement of the 8-bit unsigned sum modulo 256 of the bytes at
positions 0 through length - 2; on the fixture buffer with length 10 the
result is 0x40. -/
theorem calcChecksum_eq_specChecksum (state : List Nat) (length : Nat)
    (h : 1 ≤ length) :
    calcChecksum state length = specChecksum state length ∧
    calcChecksum voltasFixture kVoltasStateLength = 0x40 := by
  constructor
  · have hlen : length ≠ 0 := by omega
    simp only [calcChecksum, specChecksum, sumBytes, if_pos hlen]
    exact complement8_eq_xor _ (Nat.mod_lt _ (by norm_num))
  · decide

/-- Witness for C2 at the concrete fixture buffer. -/
theorem calcChecksum_eq_specChecksum_witness :
    calcChecksum voltasFixture 10 = specChecksum voltasFixture 10 ∧
    calcChecksum voltasFixture kVoltasStateLength = 0x40 :=
  ⟨(calcChecksum_eq_specChecksum voltasFixture 10 (by norm_num)).1,
   (calcChecksum_eq_specChecksum voltasFixture 10 (by norm_num)).2⟩

/-- C3 counterexample: at the concrete degenerate input (the empty buffer
with length 0) calcChecksum returns 255, not 0 as the claim states. -/
theorem calcChecksum_length_zero_not_zero :
    calcChecksum [] 0 = 255 ∧ calcChecksum [] 0 ≠ 0 := by decide

/-- C3 (amended): for every buffer, calcChecksum with length 0 returns 255,
the bitwise complement of the empty (zero) sum. -/
theorem calcChecksum_length_zero (state : List Nat) :
    calcChecksum state 0 = 255 := by
  simp [calcChecksum]

/-- C1: evaluation at the failing input, a state whose byte 8 equals 1.
The checksum byte written by getRaw is 255, the complement of the sum of
bytes 0 through 7 only, while the complement of the sum of bytes 0 through
8 is 254; consequently the buffer that getRaw emits fails the
validChecksum test that the decode path applies. -/
theorem getRaw_checksum_ignores_byte8 :
    (getRaw (setRaw stateReset byte8One)).b9 = 255 ∧
    calcChecksum (toList byte8One) kVoltasStateLength = 254 ∧
    validChecksum (toList (getRaw (setRaw stateReset byte8One)))
      kVoltasStateLength = false := by decide


/-- C4: in strict mode, decodeVoltas rejects an expected bit count other
than the 80 protocol bits, rejects a pulse stream the Transmission Boundary
cannot match, and rejects a decoded buffer with an invalid checksum, each
as a plain boolean failure; a successful strict decode records decode_type
VOLTAS and the 80-bit count, and its bytes pass validChecksum. -/
theorem decodeVoltas_strict_spec (matched : Option (List Nat)) (nbits : Nat) :
    (nbits ≠ kVoltasBits → decodeVoltas matched nbits true = none) ∧
    decodeVoltas none nbits true = none ∧
    (∀ st, matched = some st → validChecksum st (nbits / 8) = false →
      decodeVoltas matched nbits true = none) ∧
    (∀ r, decodeVoltas matched nbits true = some r →
      nbits = kVoltasBits ∧ r.decode_type = decode_type_t.VOLTAS ∧
      r.bits = nbits ∧ matched = some r.state ∧
      validChecksum r.state kVoltasStateLength = true) := by
  refine ⟨?_, ?_, ?_, ?_⟩
  · intro h
    simp [decodeVoltas, h]
  · by_cases h : nbits = kVoltasBits <;> simp [decodeVoltas, h]
  · intro st hm hcs
    subst hm
    by_cases h : nbits = kVoltasBits
    · subst h
      simp [decodeVoltas, hcs]
    · simp [decodeVoltas, h]
  · intro r hr
    unfold decodeVoltas at hr
    split at hr
    · exact absurd hr (by simp)
    · rename_i hcond
      have hn : nbits = kVoltasBits := by
        by_contra hne
        exact hcond ⟨by simp, hne⟩
      cases matched with
      | none => exact absurd hr (by simp)
      | some st =>
        simp only at hr
        split at hr
        · exact absurd hr (by simp)
        · rename_i hv
          have hvt : validChecksum st (nbits / 8) = true := by
            rcases Bool.eq_false_or_eq_true (validChecksum st (nbits / 8))
              with ht | hf
            · exact ht
            · exact absurd ⟨by simp, hf⟩ hv
          have hre := Option.some.inj hr
          subst hn
          cases hre
          exact ⟨rfl, rfl, rfl, rfl, by
            have h10 : kVoltasBits / 8 = kVoltasStateLength := by decide
            rw [← h10]
            exact hvt⟩

/-- Witness for C4: the three rejection branches at concrete inputs — a
79-bit expectation, an unmatched pulse stream, and the all-zero ten-byte
buffer whose checksum byte is wrong. -/
theorem decodeVoltas_strict_spec_witness :
    decodeVoltas (some voltasFixture) 79 true = none ∧
    decodeVoltas none kVoltasBits true = none ∧
    decodeVoltas (some (toList stateReset)) kVoltasBits true = none :=
  ⟨(decodeVoltas_strict_spec (some voltasFixture) 79).1 (by decide),
   (decodeVoltas_strict_spec none kVoltasBits).2.1,
   (decodeVoltas_strict_spec (some (toList stateReset)) kVoltasBits).2.2.1
     (toList stateReset) rfl (by decide)⟩


/-- A mutation `f` touches only one field of byte `i`: every other byte is
unchanged, and in byte `i` the value modulo `lo` (the bits below the
field) and the quotient by `hi` (the bits at and above the end of the
field) are unchanged. -/
abbrev writesOnlyByte (f : VoltasProtocol → VoltasProtocol)
    (i lo hi : Nat) : Prop :=
  ∀ s : VoltasProtocol,
    (∀ j, j ≠ i → (toList (f s)).getD j 0 = (toList s).getD j 0) ∧
    (toList (f s)).getD i 0 % lo = (toList s).getD i 0 % lo ∧
    (toList (f s)).getD i 0 / hi = (toList s).getD i 0 / hi

/-- Replace byte 1 of a state by a function of its old value. -/
def updB1 (g : Nat → Nat) (s : VoltasProtocol) : VoltasProtocol :=
  { s with b1 := g s.b1 }

/-- Replace byte 2 of a state by a function of its old value. -/
def updB2 (g : Nat → Nat) (s : VoltasProtocol) : VoltasProtocol :=
  { s with b2 := g s.b2 }

/-- Replace byte 3 of a state by a function of its old value. -/
def updB3 (g : Nat → Nat) (s : VoltasProtocol) : VoltasProtocol :=
  { s with b3 := g s.b3 }

/-- Replace byte 8 of a state by a function of its old value. -/
def updB8 (g : Nat → Nat) (s : VoltasProtocol) : VoltasProtocol :=
  { s with b8 := g s.b8 }

theorem writesOnlyByte_updB1 (g : Nat → Nat) (lo hi : Nat)
    (hlo : ∀ x, g x % lo = x % lo) (hhi : ∀ x, g x / hi = x / hi) :
    writesOnlyByte (updB1 g) 1 lo hi := by
  intro s
  refine ⟨?_, hlo s.b1, hhi s.b1⟩
  intro j hj
  rcases j with _|_|_|_|_|_|_|_|_|_|j <;>
    first
      | rfl
      | exact absurd rfl hj

theorem writesOnlyByte_updB2 (g : Nat → Nat) (lo hi : Nat)
    (hlo : ∀ x, g x % lo = x % lo) (hhi : ∀ x, g x / hi = x / hi) :
    writesOnlyByte (updB2 g) 2 lo hi := by
  intro s
  refine ⟨?_, hlo s.b2, hhi s.b2⟩
  intro j hj
  rcases j with _|_|_|_|_|_|_|_|_|_|j <;>
    first
      | rfl
      | exact absurd rfl hj

theorem writesOnlyByte_updB3 (g : Nat → Nat) (lo hi : Nat)
    (hlo : ∀ x, g x % lo = x % lo) (hhi : ∀ x, g x / hi = x / hi) :
    writesOnlyByte (updB3 g) 3 lo hi := by
  intro s
  refine ⟨?_, hlo s.b3, hhi s.b3⟩
  intro j hj
  rcases j with _|_|_|_|_|_|_|_|_|_|j <;>
    first
      | rfl
      | exact absurd rfl hj

theorem writesOnlyByte_updB8 (g : Nat → Nat) (lo hi : Nat)
    (hlo : ∀ x, g x % lo = x % lo) (hhi : ∀ x, g x / hi = x / hi) :
    writesOnlyByte (updB8 g) 8 lo hi := by
  intro s
  refine ⟨?_, hlo s.b8, hhi s.b8⟩
  intro j hj
  rcases j with _|_|_|_|_|_|_|_|_|_|j <;>
    first
      | rfl
      | exact absurd rfl hj


/-- C5: each documented field setter rewrites only the declared bit
positions of its target byte — every other byte is returned unchanged and,
inside the written byte, the bits below and above the field keep their
values — so reserved bits and the timer fields survive every mutation; the
only operation that clears them is stateReset, which zeroes all ten
bytes. -/
theorem setters_touch_only_their_field :
    (∀ o : Bool, writesOnlyByte (fun s => setPower s o) 2 128 256) ∧
    (∀ m : Nat, writesOnlyByte (fun s => setMode s m) 1 1 16) ∧
    (∀ t : Nat, writesOnlyByte (fun s => setTemp s t) 3 1 16) ∧
    (∀ f : Nat, writesOnlyByte (fun s => setFan s f) 1 32 256) ∧
    (∀ o : Bool, writesOnlyByte (fun s => setTurbo s o) 2 32 64) ∧
    (∀ o : Bool, writesOnlyByte (fun s => setEcono s o) 3 64 128) ∧
    (∀ o : Bool, writesOnlyByte (fun s => setWifi s o) 2 8 16) ∧
    (∀ o : Bool, writesOnlyByte (fun s => setLight s o) 8 32 64) ∧
    toList stateReset = List.replicate 10 0 := by
  refine ⟨?_, ?_, ?_, ?_, ?_, ?_, ?_, ?_, by decide⟩
  · intro o
    have he : (fun s => setPower s o) =
        updB2 (fun x => setBits x 7 1 (if o then 1 else 0)) := by
      funext s
      rfl
    rw [he]
    exact writesOnlyByte_updB2 _ _ _
      (fun x => by cases o <;> (simp only [setBits]; norm_num; omega))
      (fun x => by cases o <;> (simp only [setBits]; norm_num; omega))
  · intro m
    have he : (fun s => setMode s m) =
        updB1 (fun x => setBits x 0 4 (if m = kVoltasFan ∨
          m = kVoltasHeat ∨ m = kVoltasDry ∨ m = kVoltasCool then m
          else kVoltasCool)) := by
      funext s
      simp only [setMode, updB1]
      split <;> rfl
    rw [he]
    exact writesOnlyByte_updB1 _ _ _
      (fun x => by simp only [setBits]; norm_num; omega)
      (fun x => by simp only [setBits]; norm_num; omega)
  · intro t
    have he : (fun s => setTemp s t) =
        updB3 (fun x => setBits x 0 4
          (min kVoltasMaxTemp (max kVoltasMinTemp (t % 256)) -
            kVoltasMinTemp)) := by
      funext s
      rfl
    rw [he]
    exact writesOnlyByte_updB3 _ _ _
      (fun x => by simp only [setBits]; norm_num; omega)
      (fun x => by simp only [setBits]; norm_num; omega)
  · intro f
    have he : (fun s => setFan s f) =
        updB1 (fun x => setBits x 5 3 (if f = kVoltasFanLow ∨
          f = kVoltasFanMed ∨ f = kVoltasFanHigh ∨ f = kVoltasFanAuto then f
          else kVoltasFanAuto)) := by
      funext s
      simp only [setFan, updB1]
      split <;> rfl
    rw [he]
    exact writesOnlyByte_updB1 _ _ _
      (fun x => by simp only [setBits]; norm_num; omega)
      (fun x => by simp only [setBits]; norm_num; omega)
  · intro o
    have he : (fun s => setTurbo s o) =
        updB2 (fun x => setBits x 5 1 (if o then 1 else 0)) := by
      funext s
      rfl
    rw [he]
    exact writesOnlyByte_updB2 _ _ _
      (fun x => by cases o <;> (simp only [setBits]; norm_num; omega))
      (fun x => by cases o <;> (simp only [setBits]; norm_num; omega))
  · intro o
    have he : (fun s => setEcono s o) =
        updB3 (fun x => setBits x 6 1 (if o then 1 else 0)) := by
      funext s
      rfl
    rw [he]
    exact writesOnlyByte_updB3 _ _ _
      (fun x => by cases o <;> (simp only [setBits]; norm_num; omega))
      (fun x => by cases o <;> (simp only [setBits]; norm_num; omega))
  · intro o
    have he : (fun s => setWifi s o) =
        updB2 (fun x => setBits x 3 1 (if o then 1 else 0)) := by
      funext s
      rfl
    rw [he]
    exact writesOnlyByte_updB2 _ _ _
      (fun x => by cases o <;> (simp only [setBits]; norm_num; omega))
      (fun x => by cases o <;> (simp only [setBits]; norm_num; omega))
  · intro o
    have he : (fun s => setLight s o) =
        updB8 (fun x => setBits x 5 1 (if o then 1 else 0)) := by
      funext s
      rfl
    rw [he]
    exact writesOnlyByte_updB8 _ _ _
      (fun x => by cases o <;> (simp only [setBits]; norm_num; omega))
      (fun x => by cases o <;> (simp only [setBits]; norm_num; omega))

/-- Witness for C5 at concrete states: setPower leaves timer byte 5 alone,
setTemp leaves timer byte 8 alone, and setLight keeps the low five bits of
byte 8 of a state whose byte 8 is nonzero. -/
theorem setters_touch_only_their_field_witness :
    (toList (setPower stateReset true)).getD 5 0 =
      (toList stateReset).getD 5 0 ∧
    (toList (setTemp byte8One 25)).getD 8 0 = (toList byte8One).getD 8 0 ∧
    (toList (setLight byte8One true)).getD 8 0 % 32 =
      (toList byte8One).getD 8 0 % 32 :=
  ⟨((setters_touch_only_their_field.1 true) stateReset).1 5 (by decide),
   ((setters_touch_only_their_field.2.2.1 25) byte8One).1 8 (by decide),
   ((setters_touch_only_their_field.2.2.2.2.2.2.2.1 true) byte8One).2.1⟩


/-- C6: setTemp stores the clamped temperature minus the minimum in the
4-bit Temp field, getTemp returns the stored field plus the minimum, and
the two uint8 extremes clamp to the two bounds. -/
theorem setTemp_stores_clamped (s : VoltasProtocol) (t : Nat) (h : t < 256) :
    Temp (setTemp s t) =
      min kVoltasMaxTemp (max kVoltasMinTemp t) - kVoltasMinTemp ∧
    getTemp (setTemp s t) = min kVoltasMaxTemp (max kVoltasMinTemp t) ∧
    getTemp (setTemp s 0) = kVoltasMinTemp ∧
    getTemp (setTemp s 255) = kVoltasMaxTemp := by
  simp only [setTemp, getTemp, Temp, getBits, setBits, kVoltasMinTemp,
    kVoltasMaxTemp]
  norm_num
  omega

/-- Witness for C6 at the concrete input 42 on the zero state. -/
theorem setTemp_stores_clamped_witness :
    Temp (setTemp stateReset 42) =
      min kVoltasMaxTemp (max kVoltasMinTemp 42) - kVoltasMinTemp ∧
    getTemp (setTemp stateReset 42) =
      min kVoltasMaxTemp (max kVoltasMinTemp 42) :=
  ⟨(setTemp_stores_clamped stateReset 42 (by decide)).1,
   (setTemp_stores_clamped stateReset 42 (by decide)).2.1⟩


/-- C7: setMode stores its argument when it is one of the four enumerated
modes and stores Cool otherwise; setFan stores its argument when it is one
of the four enumerated speeds and stores Auto otherwise; getMode and
getFan return the stored fields verbatim, with no re-validation, even for
a state installed by setRaw. -/
theorem setMode_setFan_remap (s X : VoltasProtocol) (m f : Nat) :
    ((m = kVoltasFan ∨ m = kVoltasHeat ∨ m = kVoltasDry ∨ m = kVoltasCool) →
      getMode (setMode s m) = m) ∧
    (¬(m = kVoltasFan ∨ m = kVoltasHeat ∨ m = kVoltasDry ∨
        m = kVoltasCool) → getMode (setMode s m) = kVoltasCool) ∧
    ((f = kVoltasFanLow ∨ f = kVoltasFanMed ∨ f = kVoltasFanHigh ∨
        f = kVoltasFanAuto) → getFan (setFan s f) = f) ∧
    (¬(f = kVoltasFanLow ∨ f = kVoltasFanMed ∨ f = kVoltasFanHigh ∨
        f = kVoltasFanAuto) → getFan (setFan s f) = kVoltasFanAuto) ∧
    getMode (setRaw s X) = Mode X ∧
    getFan (setRaw s X) = FanSpeed X := by
  refine ⟨?_, ?_, ?_, ?_, rfl, rfl⟩
  · intro hm
    have hif : setMode s m = { s with b1 := setBits s.b1 0 4 m } := by
      simp only [setMode, if_pos hm]
    rcases hm with rfl | rfl | rfl | rfl <;>
      · rw [hif]
        simp only [getMode, Mode, getBits, setBits, kVoltasFan, kVoltasHeat,
          kVoltasDry, kVoltasCool]
        norm_num
        omega
  · intro hm
    have hif : setMode s m = { s with b1 := setBits s.b1 0 4 kVoltasCool } := by
      simp only [setMode, if_neg hm]
    rw [hif]
    simp only [getMode, Mode, getBits, setBits, kVoltasCool]
    norm_num
    omega
  · intro hf
    have hif : setFan s f = { s with b1 := setBits s.b1 5 3 f } := by
      simp only [setFan, if_pos hf]
    rcases hf with rfl | rfl | rfl | rfl <;>
      · rw [hif]
        simp only [getFan, FanSpeed, getBits, setBits, kVoltasFanLow,
          kVoltasFanMed, kVoltasFanHigh, kVoltasFanAuto]
        norm_num
        omega
  · intro hf
    have hif : setFan s f =
        { s with b1 := setBits s.b1 5 3 kVoltasFanAuto } := by
      simp only [setFan, if_neg hf]
    rw [hif]
    simp only [getFan, FanSpeed, getBits, setBits, kVoltasFanAuto]
    norm_num
    omega

/-- Witness for C7 at concrete inputs: the valid mode Heat is stored
verbatim, the invalid mode 255 becomes Cool, the valid speed Low is stored
verbatim and the invalid speed 255 becomes Auto. -/
theorem setMode_setFan_remap_witness :
    getMode (setMode stateReset kVoltasHeat) = kVoltasHeat ∧
    getMode (setMode stateReset 255) = kVoltasCool ∧
    getFan (setFan stateReset kVoltasFanLow) = kVoltasFanLow ∧
    getFan (setFan stateReset 255) = kVoltasFanAuto :=
  ⟨(setMode_setFan_remap stateReset stateReset kVoltasHeat 0).1
      (Or.inr (Or.inl rfl)),
   (setMode_setFan_remap stateReset stateReset 255 0).2.1 (by decide),
   (setMode_setFan_remap stateReset stateReset 0 kVoltasFanLow).2.2.1
      (Or.inl rfl),
   (setMode_setFan_remap stateReset stateReset 0 255).2.2.2.1 (by decide)⟩


/-- C8: the full conversion table between the abstract fan-speed enum and
the native fan codes, in both directions, together with a concrete input
showing the two directions are not mutual inverses (abstract Low maps to
native Low, which maps back to abstract Min). -/
theorem convertFan_toCommonFanSpeed_table :
    convertFan stdAc.fanspeed_t.kMin = kVoltasFanLow ∧
    convertFan stdAc.fanspeed_t.kLow = kVoltasFanLow ∧
    convertFan stdAc.fanspeed_t.kMedium = kVoltasFanMed ∧
    convertFan stdAc.fanspeed_t.kHigh = kVoltasFanHigh ∧
    convertFan stdAc.fanspeed_t.kMax = kVoltasFanHigh ∧
    convertFan stdAc.fanspeed_t.kAuto = kVoltasFanAuto ∧
    toCommonFanSpeed kVoltasFanHigh = stdAc.fanspeed_t.kMax ∧
    toCommonFanSpeed kVoltasFanMed = stdAc.fanspeed_t.kMedium ∧
    toCommonFanSpeed kVoltasFanLow = stdAc.fanspeed_t.kMin ∧
    (∀ n : Nat, n ≠ kVoltasFanHigh → n ≠ kVoltasFanMed →
      n ≠ kVoltasFanLow → toCommonFanSpeed n = stdAc.fanspeed_t.kAuto) ∧
    toCommonFanSpeed (convertFan stdAc.fanspeed_t.kLow) ≠
      stdAc.fanspeed_t.kLow := by
  refine ⟨rfl, rfl, rfl, rfl, rfl, rfl, by decide, by decide, by decide,
    ?_, by decide⟩
  intro n h1 h2 h3
  simp [toCommonFanSpeed, h1, h2, h3]

/-- Witness for C8: the native value 5 (Auto) and the out-of-range native
value 0 both map to the abstract Auto speed. -/
theorem convertFan_toCommonFanSpeed_table_witness :
    toCommonFanSpeed kVoltasFanAuto = stdAc.fanspeed_t.kAuto ∧
    toCommonFanSpeed 0 = stdAc.fanspeed_t.kAuto :=
  ⟨convertFan_toCommonFanSpeed_table.2.2.2.2.2.2.2.2.2.1 kVoltasFanAuto
      (by decide) (by decide) (by decide),
   convertFan_toCommonFanSpeed_table.2.2.2.2.2.2.2.2.2.1 0
      (by decide) (by decide) (by decide)⟩


/-- One possible initial contents of the uninitialized local
`stdAc::state_t result;` of toCommon. -/
def uninitResultA : stdAc.state_t :=
  ⟨decode_type_t.UNKNOWN, 0, false, stdAc.opmode_t.kCool, 0, false,
   stdAc.fanspeed_t.kAuto, stdAc.swingv_t.kOff, stdAc.swingh_t.kOff,
   false, false, false, false, false, false, false, 0, 0⟩

/-- Another possible initial contents of the uninitialized local, differing
in the four fields toCommon never assigns. -/
def uninitResultB : stdAc.state_t :=
  { uninitResultA with
    mode := stdAc.opmode_t.kHeat
    swingv := stdAc.swingv_t.kAuto
    clean := true
    sleep := 3 }

/-- C9 counterexample: on the concrete zero state, the mode, vertical
swing, clean and sleep fields of the toCommon result change with the
initial contents of the uninitialized result struct, so none of them is
set to any fixed sentinel value — they are left undefined. -/
theorem toCommon_leaves_fields_unassigned :
    (toCommon stateReset uninitResultA).mode ≠
      (toCommon stateReset uninitResultB).mode ∧
    (toCommon stateReset uninitResultA).swingv ≠
      (toCommon stateReset uninitResultB).swingv ∧
    (toCommon stateReset uninitResultA).clean ≠
      (toCommon stateReset uninitResultB).clean ∧
    (toCommon stateReset uninitResultA).sleep ≠
      (toCommon stateReset uninitResultB).sleep := by decide

/-- C9 (amended): toCommon copies power, temperature, fan speed, turbo,
econo and light out of the state; it sets the unsupported model, horizontal
swing, quiet, filter, beep and clock fields to explicit sentinel values;
and it leaves mode, vertical swing, clean and sleep unassigned, passing
through whatever the uninitialized result struct already held. -/
theorem toCommon_fields (s : VoltasProtocol) (result0 : stdAc.state_t) :
    (toCommon s result0).protocol = decode_type_t.VOLTAS ∧
    (toCommon s result0).power = getPower s ∧
    (toCommon s result0).celsius = true ∧
    (toCommon s result0).degrees = getTemp s ∧
    (toCommon s result0).fanspeed = toCommonFanSpeed (FanSpeed s) ∧
    (toCommon s result0).turbo = getTurbo s ∧
    (toCommon s result0).econo = getEcono s ∧
    (toCommon s result0).light = getLight s ∧
    (toCommon s result0).model = -1 ∧
    (toCommon s result0).swingh = stdAc.swingh_t.kOff ∧
    (toCommon s result0).quiet = false ∧
    (toCommon s result0).filter = false ∧
    (toCommon s result0).beep = false ∧
    (toCommon s result0).clock = -1 ∧
    (toCommon s result0).mode = result0.mode ∧
    (toCommon s result0).swingv = result0.swingv ∧
    (toCommon s result0).clean = result0.clean ∧
    (toCommon s result0).sleep = result0.sleep := by
  refine ⟨rfl, rfl, rfl, rfl, rfl, rfl, rfl, rfl, rfl, rfl, rfl, rfl, rfl,
    rfl, rfl, rfl, rfl, rfl⟩

/-- C10: getTemp performs no re-validation — after setRaw installs an
arbitrary ten-byte buffer, getTemp returns the raw low nibble of byte 3
plus the minimum temperature, and whenever that nibble exceeds
MaxTemp - MinTemp the returned value is strictly above MaxTemp. -/
theorem getTemp_does_not_revalidate (X s : VoltasProtocol) :
    getTemp (setRaw s X) = X.b3 % 16 + kVoltasMinTemp ∧
    (kVoltasMaxTemp - kVoltasMinTemp < X.b3 % 16 →
      kVoltasMaxTemp < getTemp (setRaw s X)) := by
  constructor
  · simp only [setRaw, getTemp, Temp, getBits]
    norm_num
  · intro h
    simp only [setRaw, getTemp, Temp, getBits, kVoltasMinTemp,
      kVoltasMaxTemp] at *
    omega

/-- A buffer whose Temp nibble holds the out-of-range raw pattern 15. -/
def tempNibble15 : VoltasProtocol := ⟨0, 0, 0, 15, 0, 0, 0, 0, 0, 0⟩

/-- Witness for C10: installing a buffer whose Temp nibble is 15 makes
getTemp report 31, strictly above the 30 degree maximum. -/
theorem getTemp_does_not_revalidate_witness :
    getTemp (setRaw stateReset tempNibble15) =
      tempNibble15.b3 % 16 + kVoltasMinTemp ∧
    kVoltasMaxTemp < getTemp (setRaw stateReset tempNibble15) :=
  ⟨(getTemp_does_not_revalidate tempNibble15 stateReset).1,
   (getTemp_does_not_revalidate tempNibble15 stateReset).2 (by decide)⟩

end Voltas
